import Mathlib

/-!
Shallow embedding of the duplicate-detection core of the ai-bug-deduplication
service, together with proofs of the behavioural claims about it.

Conventions of the embedding:
* Python strings are modelled as `List Char`; `''.strip()`, `.lower()`,
  `.upper()`, `.split()` and `len` become the structural helpers below.
  Concrete text is written `"...".data`.
* Optional / missing dictionary entries and nullable database columns are
  `Option (List Char)`; Python truthiness of `bug_data.get(k)` is
  `isPresent`.
* Floating-point scores are modelled as exact rationals (`ℚ`).  The square
  root used by `numpy.linalg.norm` has no exact rational counterpart, so the
  vector-store operations take an abstract `sqrt : ℚ → ℚ` parameter;
  theorems assume of it only the properties of the real square root that the
  code path under scrutiny actually uses.
* The sentence-transformer model of `EmbeddingService` is external to the
  repository; it enters the embedding as an abstract `model` function
  `List Char → List ℚ`.
* Database writes (`db.session.add`) are modelled by returning the rows the
  code would insert; the `DetectorResult` record collects them per table.
-/

/-- Python `str.lower()` (ASCII). -/
def lowerS (s : List Char) : List Char := s.map Char.toLower

/-- Python `str.upper()` (ASCII). -/
def upperS (s : List Char) : List Char := s.map Char.toUpper

/-- Python `str.strip()`: drop leading and trailing whitespace. -/
def trimS (s : List Char) : List Char :=
  ((s.dropWhile Char.isWhitespace).reverse.dropWhile Char.isWhitespace).reverse

/-- Python `str.split()` with no argument: split on whitespace runs, dropping
empty pieces. -/
def wordsOf (s : List Char) : List (List Char) :=
  (s.splitOnP Char.isWhitespace).filter (fun w => !w.isEmpty)

/-- Python `str.split(sep)` for a one-character separator (used for
`build_version.split('.')`). -/
def splitOnChar (sep : Char) (s : List Char) : List (List Char) :=
  s.splitOnP (fun c => c == sep)

/-- Python `str.isupper()`: at least one cased character and no lowercase
cased character (ASCII letters are the cased characters). -/
def isUpperS (s : List Char) : Bool :=
  s.any Char.isAlpha && s.all (fun c => !c.isLower)

/-- The string value of an optional field, `''` when absent:
`bug_data.get(k, '')` and `column or ''`. -/
def orEmpty (o : Option (List Char)) : List Char := o.getD []

/-- Python truthiness of `bug_data.get(k)` / of a nullable text column:
present and non-empty. -/
def isPresent (o : Option (List Char)) : Bool := !(o.getD []).isEmpty

/-- An incoming submission: the `bug_data` dictionary.  A `none` field is an
absent key (or a `None` value, which the code treats identically through
`get`/truthiness). -/
structure BugData where
  title : Option (List Char) := none
  description : Option (List Char) := none
  repro_steps : Option (List Char) := none
  logs : Option (List Char) := none
  severity : Option (List Char) := none
  priority : Option (List Char) := none
  reporter : Option (List Char) := none
  device : Option (List Char) := none
  os_version : Option (List Char) := none
  build_version : Option (List Char) := none
  region : Option (List Char) := none
deriving DecidableEq

/-- A `Bug` row.  The SQLAlchemy model file is not under `src/`; the fields
and their nullability are taken from how `src/app/services/*` reads and
writes them, plus the spec's data model for `is_recurring` (which no service
code ever writes). -/
structure Bug where
  id : Nat
  title : Option (List Char) := none
  description : Option (List Char) := none
  repro_steps : Option (List Char) := none
  logs : Option (List Char) := none
  severity : Option (List Char) := none
  priority : Option (List Char) := none
  reporter : Option (List Char) := none
  device : Option (List Char) := none
  os_version : Option (List Char) := none
  build_version : Option (List Char) := none
  region : Option (List Char) := none
  status : List Char := "New".data
  classification_tag : Option (List Char) := none
  parent_bug_id : Option Nat := none
  match_score : Option ℚ := none
  embedding : Option (List ℚ) := none
  /-- Modelled from the spec: the `Bug` model file is absent from `src/`;
  the spec's data model lists a derived `is_recurring` flag. -/
  is_recurring : Bool := false
deriving DecidableEq

namespace QualityChecker

/-- Configuration of `QualityChecker.__init__`
(`src/app/services/quality_checker.py`). -/
structure Config where
  min_description_length : Nat := 50
  require_repro_steps : Bool := true
  require_logs : Bool := false

/-- The anchored patterns of `_is_generic_title`, as the exact set of strings
they full-match (`^crashes?$` matches `crash` and `crashes`). -/
def generic_titles : List (List Char) :=
  ["bug".data, "error".data, "issue".data, "problem".data, "help".data,
   "test".data, "broken".data, "not working".data, "doesn\x27t work".data,
   "crash".data, "crashes".data]

/-- `QualityChecker._is_generic_title`: lowercase, strip, then full-match
against the stop-set. -/
def is_generic_title (title : List Char) : Bool :=
  generic_titles.contains (trimS (lowerS title))

/-- `QualityChecker._is_low_quality_text`: unique-word ratio below 0.3, or
shouting (all-caps and longer than 20), or more than 30% special characters.
The final ratio divides by `len(text)`; the function is only reached on
non-empty text (ℚ division by zero, returning 0, is the unreachable case). -/
def is_low_quality_text (text : List Char) : Bool :=
  let words := wordsOf (lowerS text)
  (decide (0 < words.length) &&
    decide (((words.dedup.length : ℚ) / (words.length : ℚ)) < 0.3))
  || (decide (20 < text.length) && isUpperS text)
  || decide ((((text.filter
        (fun c => !c.isAlphanum && !c.isWhitespace)).length : ℚ)
        / (text.length : ℚ)) > 0.3)

/-- `QualityChecker.check_quality`: returns `(is_valid, issues)` with the
issue codes accumulated in source order. -/
def check_quality (qc : Config) (d : BugData) : Bool × List (List Char) :=
  let title := trimS (orEmpty d.title)
  let i1 : List (List Char) :=
    if title.isEmpty then ["missing_title".data]
    else if title.length < 10 then ["title_too_short".data]
    else if is_generic_title title then ["generic_title".data]
    else []
  let description := trimS (orEmpty d.description)
  let i2 : List (List Char) :=
    if description.isEmpty then ["missing_description".data]
    else if description.length < qc.min_description_length then
      ["description_too_short".data]
    else if is_low_quality_text description then ["low_quality_description".data]
    else []
  let i3 : List (List Char) :=
    if qc.require_repro_steps then
      let repro_steps := trimS (orEmpty d.repro_steps)
      if repro_steps.isEmpty then ["missing_repro_steps".data]
      else if repro_steps.length < 20 then ["repro_steps_too_short".data]
      else []
    else []
  let i4 : List (List Char) :=
    if qc.require_logs then
      if (trimS (orEmpty d.logs)).isEmpty then ["missing_logs".data] else []
    else []
  let i5 : List (List Char) :=
    if isPresent d.device then [] else ["missing_device_info".data]
  let i6 : List (List Char) :=
    if isPresent d.build_version then [] else ["missing_build_version".data]
  let i7 : List (List Char) :=
    if isPresent d.region then [] else ["missing_region".data]
  let issues := i1 ++ i2 ++ i3 ++ i4 ++ i5 ++ i6 ++ i7
  (issues.isEmpty, issues)

end QualityChecker

namespace EmbeddingService

/-- `EmbeddingService.generate_embedding`
(`src/app/services/embedding_service.py`): the zero vector for empty or
blank text, otherwise the sentence-transformer output, abstracted as
`model`. -/
def generate_embedding (model : List Char → List ℚ) (dimension : Nat)
    (text : List Char) : List ℚ :=
  if (trimS text).isEmpty then List.replicate dimension 0 else model text

end EmbeddingService

namespace VectorStore

/-- Sum of squares of a vector; `numpy.linalg.norm v` is its real square
root. -/
def sumSq (v : List ℚ) : ℚ := (v.map (fun x => x * x)).sum

/-- Inner product of two rows. -/
def dot (u v : List ℚ) : ℚ := (List.zipWith (fun a b => a * b) u v).sum

/-- `VectorStore._normalize_vectors`, one row
(`src/app/utils/vector_store.py`): compute the L2 norm, replace a zero norm
by 1, divide.  `sqrt` abstracts the real square root of `numpy`. -/
def normalize_row (sqrt : ℚ → ℚ) (v : List ℚ) : List ℚ :=
  let n0 := sqrt (sumSq v)
  let n := if n0 = 0 then 1 else n0
  v.map (fun x => x / n)

/-- `VectorStore._normalize_vectors` on a whole matrix (row-wise). -/
def normalize_vectors (sqrt : ℚ → ℚ) (rows : List (List ℚ)) : List (List ℚ) :=
  rows.map (normalize_row sqrt)

/-- The state of `VectorStore`: the FAISS `IndexFlatIP` rows in insertion
order (normalized at `add` time, `index.ntotal = vectors.length`) and the
separate `bug_ids` position-to-id mapping. -/
structure Store where
  dimension : Nat
  vectors : List (List ℚ) := []
  bug_ids : List Nat := []
deriving DecidableEq

/-- `VectorStore.add_vectors`: reject a length mismatch (`ValueError`),
otherwise append the normalized rows to the index and the ids to the
mapping. -/
def add_vectors (store : Store) (sqrt : ℚ → ℚ) (embeddings : List (List ℚ))
    (bug_ids : List Nat) : Option Store :=
  if embeddings.length ≠ bug_ids.length then none
  else some { store with
    vectors := store.vectors ++ normalize_vectors sqrt embeddings,
    bug_ids := store.bug_ids ++ bug_ids }

/-- `VectorStore.search`: empty index gives `[]`; otherwise normalize the
query, let FAISS return the `min (k+1) ntotal` best inner products in
descending order (exact search; equal scores in position order), keep the
positions that are inside the `bug_ids` mapping, translate positions to bug
ids, and truncate to `k`. -/
def search (store : Store) (sqrt : ℚ → ℚ) (query : List ℚ) (k : Nat) :
    List (Nat × ℚ) :=
  if store.vectors.length = 0 then []
  else
    let nq := normalize_row sqrt query
    let search_k := min (k + 1) store.vectors.length
    let pairs := store.vectors.enum.map (fun p => (p.1, dot nq p.2))
    let ranked := (pairs.mergeSort (fun a b => decide (a.2 ≥ b.2))).take search_k
    let results := ranked.filterMap (fun p =>
      if p.1 < store.bug_ids.length then some (store.bug_ids.getD p.1 0, p.2)
      else none)
    results.take k

/-- `VectorStore.remove_vector`: delete the first occurrence of `bug_id`
from the `bug_ids` mapping; the FAISS index itself is untouched. -/
def remove_vector (store : Store) (bug_id : Nat) : Store :=
  if bug_id ∈ store.bug_ids then
    { store with bug_ids := store.bug_ids.erase bug_id }
  else store

/-- `VectorStore.rebuild_index`: fresh index and mapping, then `add_vectors`
when there is anything to add. -/
def rebuild_index (store : Store) (sqrt : ℚ → ℚ) (embeddings : List (List ℚ))
    (bug_ids : List Nat) : Option Store :=
  let fresh : Store := { dimension := store.dimension }
  if bug_ids.length ≠ 0 then add_vectors fresh sqrt embeddings bug_ids
  else some fresh

end VectorStore

namespace SimilarityEngine

/-- `SimilarityEngine._build_text_for_matching`: join the non-empty parts
with single spaces (`' '.join(filter(None, parts))`). -/
def build_text_for_matching (d : BugData) : List Char :=
  let parts : List (List Char) :=
    [orEmpty d.title, orEmpty d.description, orEmpty d.repro_steps,
     if isPresent d.device then "Device: ".data ++ orEmpty d.device else [],
     if isPresent d.build_version then
       "Build: ".data ++ orEmpty d.build_version else [],
     if isPresent d.region then "Region: ".data ++ orEmpty d.region else []]
  List.intercalate " ".data (parts.filter (fun p => !p.isEmpty))

/-- `SimilarityEngine._is_similar_build`: same `major.minor` prefix.  The
`try` of the source cannot fail: splitting always succeeds and the indexing
is guarded by the length test. -/
def is_similar_build (build1 build2 : List Char) : Bool :=
  let parts1 := splitOnChar '.' build1
  let parts2 := splitOnChar '.' build2
  if 2 ≤ parts1.length && 2 ≤ parts2.length then
    parts1.getD 0 [] == parts2.getD 0 [] && parts1.getD 1 [] == parts2.getD 1 []
  else false

/-- `SimilarityEngine._compute_metadata_similarity`: weighted sum over the
five metadata fields, normalized by the weights of the fields where both
sides are non-empty.  Note the comparisons of the source: `device` is
compared lowercased, while `build_version`, `region`, `os_version` and
`severity` are compared with plain `==` (case-sensitively). -/
def compute_metadata_similarity (incoming : BugData) (existing : Bug) : ℚ :=
  let dev : Bool := isPresent incoming.device && isPresent existing.device
  let s1 : ℚ := if dev then
    (if lowerS (orEmpty incoming.device) = lowerS (orEmpty existing.device)
     then 0.2 else 0) else 0
  let w1 : ℚ := if dev then 0.2 else 0
  let bld : Bool := isPresent incoming.build_version && isPresent existing.build_version
  let s2 : ℚ := if bld then
    (if orEmpty incoming.build_version = orEmpty existing.build_version then 0.3
     else if SimilarityEngine.is_similar_build (orEmpty incoming.build_version)
            (orEmpty existing.build_version) then 0.15
     else 0) else 0
  let w2 : ℚ := if bld then 0.3 else 0
  let reg : Bool := isPresent incoming.region && isPresent existing.region
  let s3 : ℚ := if reg then
    (if orEmpty incoming.region = orEmpty existing.region then 0.2 else 0) else 0
  let w3 : ℚ := if reg then 0.2 else 0
  let osv : Bool := isPresent incoming.os_version && isPresent existing.os_version
  let s4 : ℚ := if osv then
    (if orEmpty incoming.os_version = orEmpty existing.os_version then 0.15
     else 0) else 0
  let w4 : ℚ := if osv then 0.15 else 0
  let sev : Bool := isPresent incoming.severity && isPresent existing.severity
  let s5 : ℚ := if sev then
    (if orEmpty incoming.severity = orEmpty existing.severity then 0.15
     else 0) else 0
  let w5 : ℚ := if sev then 0.15 else 0
  let score := s1 + s2 + s3 + s4 + s5
  let total_weight := w1 + w2 + w3 + w4 + w5
  if 0 < total_weight then score / total_weight else 0

/-- `SimilarityEngine._compute_hybrid_score`. -/
def compute_hybrid_score (vector_score metadata_score vector_weight
    metadata_weight : ℚ) : ℚ :=
  vector_score * vector_weight + metadata_score * metadata_weight

/-- `SimilarityEngine._is_cross_region`: uppercase both regions; `false`
when either is missing or empty, otherwise inequality. -/
def is_cross_region (incoming : BugData) (existing : Bug) : Bool :=
  let incoming_region := upperS (orEmpty incoming.region)
  let existing_region := upperS (orEmpty existing.region)
  if incoming_region.isEmpty || existing_region.isEmpty then false
  else decide (incoming_region ≠ existing_region)

/-- `SimilarityEngine._normalize_cross_region_score`: fixed penalty 0.05,
clamped at 0. -/
def normalize_cross_region_score (score : ℚ) : ℚ := max 0 (score - 0.05)

/-- `SimilarityEngine._get_matching_fields`: names of the five metadata
fields whose values match case-insensitively (both sides present). -/
def get_matching_fields (incoming : BugData) (existing : Bug) : List (List Char) :=
  (if isPresent incoming.device && isPresent existing.device &&
      lowerS (orEmpty incoming.device) == lowerS (orEmpty existing.device)
   then ["device".data] else []) ++
  (if isPresent incoming.build_version && isPresent existing.build_version &&
      lowerS (orEmpty incoming.build_version) == lowerS (orEmpty existing.build_version)
   then ["build_version".data] else []) ++
  (if isPresent incoming.region && isPresent existing.region &&
      lowerS (orEmpty incoming.region) == lowerS (orEmpty existing.region)
   then ["region".data] else []) ++
  (if isPresent incoming.os_version && isPresent existing.os_version &&
      lowerS (orEmpty incoming.os_version) == lowerS (orEmpty existing.os_version)
   then ["os_version".data] else []) ++
  (if isPresent incoming.severity && isPresent existing.severity &&
      lowerS (orEmpty incoming.severity) == lowerS (orEmpty existing.severity)
   then ["severity".data] else [])

/-- `SimilarityEngine._get_differing_fields`: the four fields (no severity)
whose values differ case-insensitively (both sides present). -/
def get_differing_fields (incoming : BugData) (existing : Bug) : List (List Char) :=
  (if isPresent incoming.device && isPresent existing.device &&
      lowerS (orEmpty incoming.device) != lowerS (orEmpty existing.device)
   then ["device".data] else []) ++
  (if isPresent incoming.build_version && isPresent existing.build_version &&
      lowerS (orEmpty incoming.build_version) != lowerS (orEmpty existing.build_version)
   then ["build_version".data] else []) ++
  (if isPresent incoming.region && isPresent existing.region &&
      lowerS (orEmpty incoming.region) != lowerS (orEmpty existing.region)
   then ["region".data] else []) ++
  (if isPresent incoming.os_version && isPresent existing.os_version &&
      lowerS (orEmpty incoming.os_version) != lowerS (orEmpty existing.os_version)
   then ["os_version".data] else [])

/-- `SimilarityEngine._determine_confidence_level`. -/
def determine_confidence_level (incoming : BugData) (existing : Bug) : List Char :=
  let matching := get_matching_fields incoming existing
  if 3 ≤ matching.length then "high".data
  else if 1 ≤ matching.length then "medium".data
  else "low".data

/-- One entry of the candidate list built by
`SimilarityEngine.find_similar_bugs`. -/
structure Candidate where
  bug_id : Nat
  bug : Bug
  vector_score : ℚ
  metadata_score : ℚ
  hybrid_score : ℚ
  is_cross_region : Bool
  matching_fields : List (List Char)
  differing_fields : List (List Char)
  confidence_level : List Char
deriving DecidableEq

/-- The candidate-building loop of `find_similar_bugs`: look each vector
candidate up in the database, drop missing bugs and Resolved/Closed
non-Recurring bugs, score the rest, and keep those above the loose
pre-filter `threshold * 0.8`. -/
def candidate_pool (db : List Bug) (incoming : BugData) (threshold : ℚ)
    (vector_candidates : List (Nat × ℚ)) : List Candidate :=
  vector_candidates.filterMap (fun p =>
    match db.find? (fun b => b.id == p.1) with
    | none => none
    | some bug =>
      if (bug.status == "Resolved".data || bug.status == "Closed".data) &&
         !(bug.classification_tag == some "Recurring".data) then none
      else
        let metadata_score := compute_metadata_similarity incoming bug
        let h0 := compute_hybrid_score p.2 metadata_score 0.7 0.3
        let hybrid_score :=
          if is_cross_region incoming bug then normalize_cross_region_score h0
          else h0
        if threshold * 0.8 ≤ hybrid_score then
          some { bug_id := bug.id, bug := bug, vector_score := p.2,
                 metadata_score := metadata_score, hybrid_score := hybrid_score,
                 is_cross_region := is_cross_region incoming bug,
                 matching_fields := get_matching_fields incoming bug,
                 differing_fields := get_differing_fields incoming bug,
                 confidence_level := determine_confidence_level incoming bug }
        else none)

/-- `SimilarityEngine.find_similar_bugs`: embed the assembled text, ask the
vector store for `2 * top_k` neighbours, build the candidate pool, sort by
hybrid score descending (stable, like Python `list.sort`), truncate to
`top_k` and keep the candidates at or above `threshold`. -/
def find_similar_bugs (db : List Bug) (store : VectorStore.Store)
    (sqrt : ℚ → ℚ) (model : List Char → List ℚ) (incoming : BugData)
    (threshold : ℚ) (top_k : Nat) : List Candidate :=
  let text := build_text_for_matching incoming
  let embedding := EmbeddingService.generate_embedding model store.dimension text
  let vector_candidates := VectorStore.search store sqrt embedding (top_k * 2)
  let candidates := candidate_pool db incoming threshold vector_candidates
  let sorted := candidates.mergeSort
    (fun a b => decide (a.hybrid_score ≥ b.hybrid_score))
  (sorted.take top_k).filter (fun c => decide (threshold ≤ c.hybrid_score))

end SimilarityEngine

namespace DuplicateDetector

/-- A `DuplicateHistory` row as `_handle_duplicate` inserts it. -/
structure DuplicateHistory where
  duplicate_bug_id : Option Nat
  parent_bug_id : Nat
  match_score : ℚ
  match_method : List Char
  submission_data : BugData
  submitted_by : Option (List Char)
  was_blocked : Bool
deriving DecidableEq

/-- An `AuditLog` row, restricted to the identifying columns the services
set (`ai_reasoning`/`metadata` carry diagnostic JSON payloads of the same
data and are not modelled separately). -/
structure AuditLog where
  event_type : List Char
  bug_id : Option Nat := none
  parent_bug_id : Option Nat := none
  user : Option (List Char) := none
  ai_confidence : Option ℚ := none
deriving DecidableEq

/-- A `LowQualityQueue` row as `_handle_low_quality` inserts it. -/
structure LowQualityQueue where
  title : List Char
  description : Option (List Char)
  repro_steps : Option (List Char)
  logs : Option (List Char)
  reporter : Option (List Char)
  device : Option (List Char)
  build_version : Option (List Char)
  region : Option (List Char)
  quality_issues : List (List Char)
  status : List Char
deriving DecidableEq

/-- The outcome of `process_incoming_bug`: the returned bug (or `None`), the
action string, and the side effects — rows handed to `db.session.add` per
table, arguments of `vector_store.add_vectors` calls, and the bugs on which
`check_recurring_pattern` is invoked (the source of
`src/app/services/duplicate_detector.py` contains no call to it). -/
structure DetectorResult where
  bug : Option Bug
  action : List Char
  new_bugs : List Bug := []
  history_rows : List DuplicateHistory := []
  audit_rows : List AuditLog := []
  low_quality_rows : List LowQualityQueue := []
  vector_inserts : List (List (List ℚ) × List Nat) := []
  recurrence_runs : List Nat := []
deriving DecidableEq

/-- `DuplicateDetector._create_bug_from_data`. -/
def create_bug_from_data (next_id : Nat) (d : BugData) : Bug :=
  { id := next_id, title := d.title, description := d.description,
    repro_steps := d.repro_steps, logs := d.logs, severity := d.severity,
    priority := d.priority, reporter := d.reporter, device := d.device,
    os_version := d.os_version, build_version := d.build_version,
    region := d.region, status := "New".data }

/-- `DuplicateDetector._handle_low_quality`: queue the submission with
status `Pending`, audit `low_quality_flagged`, return no bug. -/
def handle_low_quality (d : BugData) (quality_issues : List (List Char)) :
    DetectorResult :=
  let entry : LowQualityQueue :=
    { title := d.title.getD "Untitled".data, description := d.description,
      repro_steps := d.repro_steps, logs := d.logs, reporter := d.reporter,
      device := d.device, build_version := d.build_version, region := d.region,
      quality_issues := quality_issues, status := "Pending".data }
  let audit : AuditLog :=
    { event_type := "low_quality_flagged".data, user := d.reporter }
  { bug := none, action := "low_quality".data,
    low_quality_rows := [entry], audit_rows := [audit] }

/-- `DuplicateDetector._handle_duplicate`: blocked — record history only
(null duplicate id, full submission snapshot) and audit `duplicate_blocked`;
not blocked — create the bug marked `Duplicate` with the parent reference
and the match score, record history, audit `duplicate_detected`. -/
def handle_duplicate (d : BugData) (next_id : Nat)
    (best : SimilarityEngine.Candidate) (blocked : Bool) : DetectorResult :=
  let parent := best.bug
  let match_score := best.hybrid_score
  if blocked then
    let history : DuplicateHistory :=
      { duplicate_bug_id := none, parent_bug_id := parent.id,
        match_score := match_score, match_method := "hybrid".data,
        submission_data := d, submitted_by := d.reporter, was_blocked := true }
    let audit : AuditLog :=
      { event_type := "duplicate_blocked".data, parent_bug_id := some parent.id,
        user := d.reporter, ai_confidence := some match_score }
    { bug := none, action := "blocked_duplicate".data,
      history_rows := [history], audit_rows := [audit] }
  else
    let bug := { create_bug_from_data next_id d with
      parent_bug_id := some parent.id, match_score := some match_score,
      classification_tag := some "Duplicate".data }
    let history : DuplicateHistory :=
      { duplicate_bug_id := some bug.id, parent_bug_id := parent.id,
        match_score := match_score, match_method := "hybrid".data,
        submission_data := d, submitted_by := d.reporter, was_blocked := false }
    let audit : AuditLog :=
      { event_type := "duplicate_detected".data, bug_id := some bug.id,
        parent_bug_id := some parent.id, user := d.reporter,
        ai_confidence := some match_score }
    { bug := some bug, action := "flagged_for_review".data,
      new_bugs := [bug], history_rows := [history], audit_rows := [audit] }

/-- Modelled from the spec: `Bug.get_text_for_embedding` lives in the absent
`app/models/bug.py`; §4.1 fixes the assembly as the same concatenation as
`_build_text_for_matching`. -/
def get_text_for_embedding (b : Bug) : List Char :=
  SimilarityEngine.build_text_for_matching
    { title := b.title, description := b.description,
      repro_steps := b.repro_steps, device := b.device,
      build_version := b.build_version, region := b.region }

/-- `DuplicateDetector._create_new_bug`: insert the bug, store its embedding
on the row, add the embedding to the vector store under the bug id, audit
`bug_created`. -/
def create_new_bug (model : List Char → List ℚ) (store : VectorStore.Store)
    (next_id : Nat) (d : BugData) : DetectorResult :=
  let bug0 := create_bug_from_data next_id d
  let text := get_text_for_embedding bug0
  let embedding := EmbeddingService.generate_embedding model store.dimension text
  let bug := { bug0 with embedding := some embedding }
  let audit : AuditLog :=
    { event_type := "bug_created".data, bug_id := some bug.id,
      user := d.reporter }
  { bug := some bug, action := "created".data, new_bugs := [bug],
    vector_inserts := [([embedding], [bug.id])], audit_rows := [audit] }

/-- `DuplicateDetector.process_incoming_bug`: quality gate first; then
similarity search at the *low* threshold with `top_k = 10`; block at or
above `similarity_threshold`, flag at or above `low_confidence_threshold`,
otherwise create. -/
def process_incoming_bug (qc : QualityChecker.Config)
    (model : List Char → List ℚ) (store : VectorStore.Store) (sqrt : ℚ → ℚ)
    (db : List Bug) (similarity_threshold low_confidence_threshold : ℚ)
    (next_id : Nat) (d : BugData) : DetectorResult :=
  let q := QualityChecker.check_quality qc d
  if !q.1 then handle_low_quality d q.2
  else
    let similar_bugs := SimilarityEngine.find_similar_bugs db store sqrt model d
      low_confidence_threshold 10
    match similar_bugs with
    | best :: _ =>
      if similarity_threshold ≤ best.hybrid_score then
        handle_duplicate d next_id best true
      else if low_confidence_threshold ≤ best.hybrid_score then
        handle_duplicate d next_id best false
      else create_new_bug model store next_id d
    | [] => create_new_bug model store next_id d

/-- `DuplicateDetector.check_recurring_pattern`: `false` without a parent
reference; count the bugs whose `parent_bug_id` is the same parent; at 3 or
more, tag the bug and the parent `Recurring`.  Returns the updated bug, the
updated database and the result.  Blocked `DuplicateHistory` rows play no
part. -/
def check_recurring_pattern (db : List Bug) (bug : Bug) :
    Bug × List Bug × Bool :=
  match bug.parent_bug_id with
  | none => (bug, db, false)
  | some pid =>
    let duplicate_count := (db.filter (fun b => b.parent_bug_id == some pid)).length
    if 3 ≤ duplicate_count then
      let bug1 := { bug with classification_tag := some "Recurring".data }
      let db1 := db.map (fun b =>
        if b.id = pid then { b with classification_tag := some "Recurring".data }
        else b)
      (bug1, db1, true)
    else (bug, db, false)

end DuplicateDetector

section Scenarios

/-- Default checker configuration (`min_description_length = 50`,
repro steps required, logs not). -/
def qc0 : QualityChecker.Config := {}

/-- A stand-in for the external sentence-transformer: every text maps to
the unit vector `[1, 0]`. -/
def model0 : List Char → List ℚ := fun _ => [1, 0]

/-- A square-root stand-in that is exact on the perfect squares arising in
the concrete scenarios (`0` and `1`). -/
def sqrt0 : ℚ → ℚ := fun q => q

/-- A quality-valid submission (title, description, repro steps, device,
build, region all satisfy the gate). -/
def d0 : BugData :=
  { title := some "App crashes on startup screen".data,
    description :=
      some "The application crashes immediately after launch on every attempt observed".data,
    repro_steps := some "Open the app and observe the crash".data,
    severity := some "major".data,
    reporter := some "alice".data,
    device := some "iPhone 14".data,
    os_version := some "17.0".data,
    build_version := some "2.0.0".data,
    region := some "US".data }

/-- An existing bug with no metadata: vector score 1 and metadata score 0
give hybrid 0.7, landing exactly in the flag band. -/
def parent0 : Bug := { id := 1 }

/-- An existing bug whose metadata all matches `d0`: hybrid score 1, above
the blocking threshold. -/
def parent1 : Bug :=
  { id := 1, severity := some "major".data, device := some "iPhone 14".data,
    os_version := some "17.0".data, build_version := some "2.0.0".data,
    region := some "US".data }

/-- A one-vector index holding the embedding of bug 1. -/
def store1 : VectorStore.Store :=
  { dimension := 2, vectors := [[1, 0]], bug_ids := [1] }

/-- An empty index. -/
def store0 : VectorStore.Store := { dimension := 2 }

end Scenarios

section Helpers

/-- Every candidate returned by `find_similar_bugs` passed the final strict
filter, so its hybrid score is at least the threshold. -/
lemma mem_find_similar_bugs_le (db : List Bug) (store : VectorStore.Store)
    (sqrt : ℚ → ℚ) (model : List Char → List ℚ) (d : BugData) (threshold : ℚ)
    (top_k : Nat) :
    ∀ c ∈ SimilarityEngine.find_similar_bugs db store sqrt model d threshold top_k,
      threshold ≤ c.hybrid_score := by
  intro c hc
  unfold SimilarityEngine.find_similar_bugs at hc
  simp only [List.mem_filter, decide_eq_true_eq] at hc
  exact hc.2

/-- The quality gate passes on `d0` with default configuration. -/
lemma qc0_d0_valid : (QualityChecker.check_quality qc0 d0).1 = true := by
  norm_num +decide [QualityChecker.check_quality, QualityChecker.is_generic_title,
    QualityChecker.is_low_quality_text, QualityChecker.generic_titles,
    qc0, d0, orEmpty, isPresent, trimS, lowerS, wordsOf, isUpperS]

/-- On an empty index the similarity engine returns no candidates. -/
lemma find_similar_store0 :
    SimilarityEngine.find_similar_bugs [] store0 sqrt0 model0 d0 0.7 10 = [] := by
  norm_num +decide [SimilarityEngine.find_similar_bugs,
    SimilarityEngine.candidate_pool, VectorStore.search, store0,
    List.filterMap_nil, List.mergeSort]

end Helpers

/-- Claim C1: for every submission passing the quality gate, the outcome of
`process_incoming_bug` is determined by the best hybrid score `s` of the
similarity search (run at the low threshold) alone: every returned candidate
scores at least `low_threshold`; with no candidate (which is exactly the
case `s < low_threshold`) the outcome is `created`; with a best candidate,
`s ≥ high_threshold` (in particular `s = high_threshold`) gives
`blocked_duplicate` and `s < high_threshold` gives `flagged_for_review`. -/
theorem process_threshold_trichotomy (qc : QualityChecker.Config)
    (model : List Char → List ℚ) (store : VectorStore.Store) (sqrt : ℚ → ℚ)
    (db : List Bug) (high low : ℚ) (next_id : Nat) (d : BugData)
    (hq : (QualityChecker.check_quality qc d).1 = true) :
    (∀ c ∈ SimilarityEngine.find_similar_bugs db store sqrt model d low 10,
      low ≤ c.hybrid_score) ∧
    (SimilarityEngine.find_similar_bugs db store sqrt model d low 10 = [] →
      (DuplicateDetector.process_incoming_bug qc model store sqrt db high low
        next_id d).action = "created".data) ∧
    (∀ best rest,
      SimilarityEngine.find_similar_bugs db store sqrt model d low 10 = best :: rest →
      (high ≤ best.hybrid_score →
        (DuplicateDetector.process_incoming_bug qc model store sqrt db high low
          next_id d).action = "blocked_duplicate".data) ∧
      (best.hybrid_score < high →
        (DuplicateDetector.process_incoming_bug qc model store sqrt db high low
          next_id d).action = "flagged_for_review".data)) := by
  refine ⟨mem_find_similar_bugs_le db store sqrt model d low 10, ?_, ?_⟩
  · intro h
    simp only [DuplicateDetector.process_incoming_bug, hq, Bool.not_true,
      Bool.false_eq_true, if_false, h]
    rfl
  · intro best rest hbr
    have hlow : low ≤ best.hybrid_score :=
      mem_find_similar_bugs_le db store sqrt model d low 10 best
        (hbr ▸ List.mem_cons_self best rest)
    constructor
    · intro hhigh
      simp only [DuplicateDetector.process_incoming_bug, hq, Bool.not_true,
        Bool.false_eq_true, if_false, hbr]
      rw [if_pos hhigh]
      rfl
    · intro hlt
      simp only [DuplicateDetector.process_incoming_bug, hq, Bool.not_true,
        Bool.false_eq_true, if_false, hbr]
      rw [if_neg (not_le.mpr hlt), if_pos hlow]
      rfl

/-- Witness for C1: a concrete quality-valid submission against an empty
index is created. -/
theorem process_threshold_trichotomy_witness :
    (DuplicateDetector.process_incoming_bug qc0 model0 store0 sqrt0 [] 0.85 0.7
      1 d0).action = "created".data :=
  (process_threshold_trichotomy qc0 model0 store0 sqrt0 [] 0.85 0.7 1 d0
    qc0_d0_valid).2.1 find_similar_store0

section FlagBlockScenarios

/-- The single candidate produced for `d0` against `[parent0]`/`store1`:
vector score 1, no shared metadata, hybrid exactly 0.7. -/
def candFlag : SimilarityEngine.Candidate :=
  { bug_id := 1, bug := parent0, vector_score := 1, metadata_score := 0,
    hybrid_score := 0.7, is_cross_region := false, matching_fields := [],
    differing_fields := [], confidence_level := "low".data }

/-- The single candidate produced for `d0` against `[parent1]`/`store1`:
vector score 1 and full metadata agreement, hybrid 1. -/
def candBlock : SimilarityEngine.Candidate :=
  { bug_id := 1, bug := parent1, vector_score := 1, metadata_score := 1,
    hybrid_score := 1, is_cross_region := false,
    matching_fields := ["device".data, "build_version".data, "region".data,
      "os_version".data, "severity".data],
    differing_fields := [], confidence_level := "high".data }

/-- Evaluation of the similarity pipeline in the flag scenario. -/
lemma find_similar_flag :
    SimilarityEngine.find_similar_bugs [parent0] store1 sqrt0 model0 d0 0.7 10 =
      [candFlag] := by
  have h1 : EmbeddingService.generate_embedding model0 store1.dimension
      (SimilarityEngine.build_text_for_matching d0) = [1, 0] := by
    norm_num +decide [EmbeddingService.generate_embedding,
      SimilarityEngine.build_text_for_matching, model0, d0, store1, orEmpty,
      isPresent, trimS]
  have h2 : VectorStore.search store1 sqrt0 [1, 0] 20 = [(1, 1)] := by
    norm_num +decide [VectorStore.search, VectorStore.normalize_row,
      VectorStore.sumSq, VectorStore.dot, store1, sqrt0, List.mergeSort]
  have h3 : SimilarityEngine.candidate_pool [parent0] d0 0.7 [(1, 1)] =
      [candFlag] := by
    norm_num +decide [SimilarityEngine.candidate_pool,
      List.filterMap_cons, List.filterMap_nil, List.find?,
      SimilarityEngine.compute_metadata_similarity,
      SimilarityEngine.compute_hybrid_score, SimilarityEngine.is_cross_region,
      SimilarityEngine.normalize_cross_region_score,
      SimilarityEngine.get_matching_fields, SimilarityEngine.get_differing_fields,
      SimilarityEngine.determine_confidence_level, candFlag,
      parent0, d0, orEmpty, isPresent, lowerS, upperS]
  rw [SimilarityEngine.find_similar_bugs, h1, h2, h3]
  norm_num +decide [List.mergeSort, candFlag]

/-- Evaluation of the similarity pipeline in the block scenario. -/
lemma find_similar_block :
    SimilarityEngine.find_similar_bugs [parent1] store1 sqrt0 model0 d0 0.7 10 =
      [candBlock] := by
  have h1 : EmbeddingService.generate_embedding model0 store1.dimension
      (SimilarityEngine.build_text_for_matching d0) = [1, 0] := by
    norm_num +decide [EmbeddingService.generate_embedding,
      SimilarityEngine.build_text_for_matching, model0, d0, store1, orEmpty,
      isPresent, trimS]
  have h2 : VectorStore.search store1 sqrt0 [1, 0] 20 = [(1, 1)] := by
    norm_num +decide [VectorStore.search, VectorStore.normalize_row,
      VectorStore.sumSq, VectorStore.dot, store1, sqrt0, List.mergeSort]
  have h3 : SimilarityEngine.candidate_pool [parent1] d0 0.7 [(1, 1)] =
      [candBlock] := by
    norm_num +decide [SimilarityEngine.candidate_pool,
      List.filterMap_cons, List.filterMap_nil, List.find?,
      SimilarityEngine.compute_metadata_similarity,
      SimilarityEngine.compute_hybrid_score, SimilarityEngine.is_cross_region,
      SimilarityEngine.normalize_cross_region_score,
      SimilarityEngine.get_matching_fields, SimilarityEngine.get_differing_fields,
      SimilarityEngine.determine_confidence_level,
      SimilarityEngine.is_similar_build, splitOnChar, candBlock,
      parent1, d0, orEmpty, isPresent, lowerS, upperS]
  rw [SimilarityEngine.find_similar_bugs, h1, h2, h3]
  norm_num +decide [List.mergeSort, candBlock]

end FlagBlockScenarios

/-- The side effects that the flagged-duplicate path actually performs: a
`Duplicate`-classified bug pointing at the parent with the hybrid score, a
non-blocked history row, a `duplicate_detected` audit event — and nothing
else: no vector-store insert and no recurrence check. -/
def flagged_outcome (next_id : Nat) (d : BugData)
    (best : SimilarityEngine.Candidate) : DuplicateDetector.DetectorResult :=
  let bug : Bug := { DuplicateDetector.create_bug_from_data next_id d with
    parent_bug_id := some best.bug.id, match_score := some best.hybrid_score,
    classification_tag := some "Duplicate".data }
  let history : DuplicateDetector.DuplicateHistory :=
    { duplicate_bug_id := some next_id, parent_bug_id := best.bug.id,
      match_score := best.hybrid_score, match_method := "hybrid".data,
      submission_data := d, submitted_by := d.reporter, was_blocked := false }
  let audit : DuplicateDetector.AuditLog :=
    { event_type := "duplicate_detected".data, bug_id := some next_id,
      parent_bug_id := some best.bug.id, user := d.reporter,
      ai_confidence := some best.hybrid_score }
  { bug := some bug, action := "flagged_for_review".data, new_bugs := [bug],
    history_rows := [history], audit_rows := [audit],
    low_quality_rows := [], vector_inserts := [], recurrence_runs := [] }

/-- The side effects of the blocked-duplicate path: no bug row, a blocked
history row with a null duplicate id carrying the full submission snapshot,
and a `duplicate_blocked` audit event referencing the parent. -/
def blocked_outcome (d : BugData) (best : SimilarityEngine.Candidate) :
    DuplicateDetector.DetectorResult :=
  let history : DuplicateDetector.DuplicateHistory :=
    { duplicate_bug_id := none, parent_bug_id := best.bug.id,
      match_score := best.hybrid_score, match_method := "hybrid".data,
      submission_data := d, submitted_by := d.reporter, was_blocked := true }
  let audit : DuplicateDetector.AuditLog :=
    { event_type := "duplicate_blocked".data, parent_bug_id := some best.bug.id,
      user := d.reporter, ai_confidence := some best.hybrid_score }
  { bug := none, action := "blocked_duplicate".data, new_bugs := [],
    history_rows := [history], audit_rows := [audit],
    low_quality_rows := [], vector_inserts := [], recurrence_runs := [] }

/-- Claim C2 (amended): on the flagged path — quality valid, best hybrid in
`[low, high)` — `process_incoming_bug` inserts a Bug with
`parent_bug_id = best.bug.id`, classification `Duplicate` and
`match_score = best.hybrid_score`, writes a `DuplicateHistory` row with
`was_blocked = false`, writes a `duplicate_detected` audit event, and does
*not* insert the embedding into the vector index nor run the recurrence
check (`flagged_outcome` has `vector_inserts = []` and
`recurrence_runs = []`). -/
theorem flagged_path_effects (qc : QualityChecker.Config)
    (model : List Char → List ℚ) (store : VectorStore.Store) (sqrt : ℚ → ℚ)
    (db : List Bug) (high low : ℚ) (next_id : Nat) (d : BugData)
    (best : SimilarityEngine.Candidate) (rest : List SimilarityEngine.Candidate)
    (hq : (QualityChecker.check_quality qc d).1 = true)
    (hbr : SimilarityEngine.find_similar_bugs db store sqrt model d low 10 =
      best :: rest)
    (hlt : best.hybrid_score < high) :
    DuplicateDetector.process_incoming_bug qc model store sqrt db high low
      next_id d = flagged_outcome next_id d best := by
  have hlow : low ≤ best.hybrid_score :=
    mem_find_similar_bugs_le db store sqrt model d low 10 best
      (hbr ▸ List.mem_cons_self best rest)
  simp only [DuplicateDetector.process_incoming_bug, hq, Bool.not_true,
    Bool.false_eq_true, if_false, hbr]
  rw [if_neg (not_le.mpr hlt), if_pos hlow]
  rfl

/-- Witness for C2 (amended): the concrete flag scenario, where the best
hybrid score is exactly 0.7. -/
theorem flagged_path_effects_witness :
    DuplicateDetector.process_incoming_bug qc0 model0 store1 sqrt0 [parent0]
      0.85 0.7 2 d0 = flagged_outcome 2 d0 candFlag :=
  flagged_path_effects qc0 model0 store1 sqrt0 [parent0] 0.85 0.7 2 d0
    candFlag [] qc0_d0_valid find_similar_flag
    (by norm_num +decide [candFlag])

/-- Counterexample for C2 as stated: in the concrete flag scenario the
outcome is `flagged_for_review`, yet no `add_vectors` call and no
recurrence-tracker run happen — contradicting the claim that the flagged
path "inserts the submission's embedding into the vector index … and runs
the Recurrence Tracker". -/
theorem flagged_path_counterexample :
    (DuplicateDetector.process_incoming_bug qc0 model0 store1 sqrt0 [parent0]
      0.85 0.7 2 d0).action = "flagged_for_review".data ∧
    (DuplicateDetector.process_incoming_bug qc0 model0 store1 sqrt0 [parent0]
      0.85 0.7 2 d0).vector_inserts = [] ∧
    (DuplicateDetector.process_incoming_bug qc0 model0 store1 sqrt0 [parent0]
      0.85 0.7 2 d0).recurrence_runs = [] := by
  have h : DuplicateDetector.process_incoming_bug qc0 model0 store1 sqrt0
      [parent0] 0.85 0.7 2 d0 = flagged_outcome 2 d0 candFlag := by
    rw [DuplicateDetector.process_incoming_bug]
    rw [find_similar_flag]
    norm_num +decide [qc0_d0_valid, candFlag, flagged_outcome,
      DuplicateDetector.handle_duplicate]
  rw [h]
  exact ⟨rfl, rfl, rfl⟩

/-- Claim C3: on the blocked path — quality valid, best hybrid at or above
`high` — no Bug row is created (`bug = none`, `new_bugs = []`), one
`DuplicateHistory` row is written with `was_blocked = true`, a null
duplicate id and the full submission snapshot, and a `duplicate_blocked`
audit event references the existing parent. -/
theorem blocked_path_effects (qc : QualityChecker.Config)
    (model : List Char → List ℚ) (store : VectorStore.Store) (sqrt : ℚ → ℚ)
    (db : List Bug) (high low : ℚ) (next_id : Nat) (d : BugData)
    (best : SimilarityEngine.Candidate) (rest : List SimilarityEngine.Candidate)
    (hq : (QualityChecker.check_quality qc d).1 = true)
    (hbr : SimilarityEngine.find_similar_bugs db store sqrt model d low 10 =
      best :: rest)
    (hge : high ≤ best.hybrid_score) :
    DuplicateDetector.process_incoming_bug qc model store sqrt db high low
      next_id d = blocked_outcome d best := by
  simp only [DuplicateDetector.process_incoming_bug, hq, Bool.not_true,
    Bool.false_eq_true, if_false, hbr]
  rw [if_pos hge]
  rfl

/-- Witness for C3: the concrete block scenario, where the best hybrid
score is 1. -/
theorem blocked_path_effects_witness :
    DuplicateDetector.process_incoming_bug qc0 model0 store1 sqrt0 [parent1]
      0.85 0.7 2 d0 = blocked_outcome d0 candBlock :=
  blocked_path_effects qc0 model0 store1 sqrt0 [parent1] 0.85 0.7 2 d0
    candBlock [] qc0_d0_valid find_similar_block
    (by norm_num +decide [candBlock])

section RecurrenceScenarios

/-- Modelled from the spec (§4.7): the count the Recurrence Tracker is
specified to use — live Bugs with `duplicate_of = P` *plus* blocked
`DuplicateHistory` rows referencing `P`.  Kept separate from
`check_recurring_pattern`, which is the code's behaviour, to compare the
two. -/
def recurrence_count_spec (db : List Bug)
    (history : List DuplicateDetector.DuplicateHistory) (pid : Nat) : Nat :=
  (db.filter (fun b => b.parent_bug_id == some pid)).length +
  (history.filter (fun h => h.was_blocked && h.parent_bug_id == pid)).length

/-- A parent bug. -/
def parentP : Bug := { id := 1 }

/-- A duplicate of `parentP`. -/
def dupB : Bug := { id := 2, parent_bug_id := some 1 }

/-- One blocked history row referencing `parentP`. -/
def histRow : DuplicateDetector.DuplicateHistory :=
  { duplicate_bug_id := none, parent_bug_id := 1, match_score := 0.9,
    match_method := "hybrid".data, submission_data := {},
    submitted_by := none, was_blocked := true }

/-- Three blocked submissions against `parentP` were recorded. -/
def hist3 : List DuplicateDetector.DuplicateHistory := [histRow, histRow, histRow]

/-- Further duplicates of `parentP` for the triggering scenario. -/
def dupC : Bug := { id := 3, parent_bug_id := some 1 }

/-- Further duplicates of `parentP` for the triggering scenario. -/
def dupD : Bug := { id := 4, parent_bug_id := some 1 }

/-- A database in which `parentP` has three live duplicates. -/
def dbRec3 : List Bug := [parentP, dupB, dupC, dupD]

end RecurrenceScenarios

/-- Counterexample for C4 as stated: with one live duplicate and three
blocked history rows for parent 1, the spec's count is 4 (≥ 3), but
`check_recurring_pattern` — which counts only Bug rows — returns `false`
and marks nothing `Recurring`. -/
theorem check_recurring_counterexample :
    recurrence_count_spec [parentP, dupB] hist3 1 = 4 ∧
    DuplicateDetector.check_recurring_pattern [parentP, dupB] dupB =
      (dupB, [parentP, dupB], false) := by
  constructor
  · decide
  · rfl

/-- Claim C4 (amended): `check_recurring_pattern` counts only the Bugs with
`parent_bug_id = P` — blocked `DuplicateHistory` rows play no part — and
when that count is at least 3 it sets `classification_tag = Recurring` on
the new duplicate and on `P`; it never touches `is_recurring`. -/
theorem check_recurring_pattern_spec (db : List Bug) (bug : Bug) (pid : Nat)
    (hp : bug.parent_bug_id = some pid) :
    (3 ≤ (db.filter (fun b => b.parent_bug_id == some pid)).length →
      DuplicateDetector.check_recurring_pattern db bug =
        ({ bug with classification_tag := some "Recurring".data },
         db.map (fun b => if b.id = pid then
           { b with classification_tag := some "Recurring".data } else b),
         true)) ∧
    ((db.filter (fun b => b.parent_bug_id == some pid)).length < 3 →
      DuplicateDetector.check_recurring_pattern db bug = (bug, db, false)) ∧
    (DuplicateDetector.check_recurring_pattern db bug).1.is_recurring =
      bug.is_recurring ∧
    (DuplicateDetector.check_recurring_pattern db bug).2.1.map Bug.is_recurring =
      db.map Bug.is_recurring := by
  rcases le_or_lt 3 ((db.filter (fun b => b.parent_bug_id == some pid)).length)
    with h3 | h3
  · have heq : DuplicateDetector.check_recurring_pattern db bug =
        ({ bug with classification_tag := some "Recurring".data },
         db.map (fun b => if b.id = pid then
           { b with classification_tag := some "Recurring".data } else b),
         true) := by
      simp only [DuplicateDetector.check_recurring_pattern, hp, if_pos h3]
    refine ⟨fun _ => heq, fun hlt => absurd h3 (not_le.mpr hlt), ?_, ?_⟩
    · rw [heq]
    · rw [heq, List.map_map]
      refine List.map_congr_left ?_
      intro b _
      by_cases hb : b.id = pid <;> simp [hb]
  · have heq : DuplicateDetector.check_recurring_pattern db bug =
        (bug, db, false) := by
      simp only [DuplicateDetector.check_recurring_pattern, hp,
        if_neg (not_le.mpr h3)]
    exact ⟨fun hge => absurd hge (not_le.mpr h3), fun _ => heq,
      by rw [heq], by rw [heq]⟩

/-- Witness for C4 (amended): three live duplicates trigger the tagging. -/
theorem check_recurring_pattern_spec_witness :
    DuplicateDetector.check_recurring_pattern dbRec3 dupD =
      ({ dupD with classification_tag := some "Recurring".data },
       dbRec3.map (fun b => if b.id = 1 then
         { b with classification_tag := some "Recurring".data } else b),
       true) :=
  (check_recurring_pattern_spec dbRec3 dupD 1 rfl).1 (by decide)

/-- Claim C5: `find_similar_bugs` returns exactly the result of — retaining
candidates with hybrid at least `0.8 * threshold` (the pool), sorting by
hybrid descending, truncating to `top_k`, then filtering with the strict
`threshold` — where every pooled candidate scores
`hybrid = 0.7 * vector + 0.3 * metadata`, lowered by the fixed 0.05 penalty
and clamped at 0 exactly when the cross-region test (both regions present
and different, compared case-insensitively) holds.  Consequently every
returned candidate is at or above `threshold`, at most `top_k` are
returned, and they are in descending hybrid order. -/
theorem find_similar_bugs_spec (db : List Bug) (store : VectorStore.Store)
    (sqrt : ℚ → ℚ) (model : List Char → List ℚ) (d : BugData) (threshold : ℚ)
    (top_k : Nat) :
    SimilarityEngine.find_similar_bugs db store sqrt model d threshold top_k =
      (((SimilarityEngine.candidate_pool db d threshold
          (VectorStore.search store sqrt
            (EmbeddingService.generate_embedding model store.dimension
              (SimilarityEngine.build_text_for_matching d))
            (top_k * 2))).mergeSort
            (fun a b => decide (a.hybrid_score ≥ b.hybrid_score))).take
        top_k).filter (fun c => decide (threshold ≤ c.hybrid_score)) ∧
    (∀ c ∈ SimilarityEngine.find_similar_bugs db store sqrt model d threshold
      top_k, threshold ≤ c.hybrid_score) ∧
    (SimilarityEngine.find_similar_bugs db store sqrt model d threshold
      top_k).length ≤ top_k ∧
    List.Pairwise (fun a b => b.hybrid_score ≤ a.hybrid_score)
      (SimilarityEngine.find_similar_bugs db store sqrt model d threshold
        top_k) ∧
    (∀ vcs : List (Nat × ℚ),
      ∀ c ∈ SimilarityEngine.candidate_pool db d threshold vcs,
      threshold * 0.8 ≤ c.hybrid_score ∧
      c.metadata_score = SimilarityEngine.compute_metadata_similarity d c.bug ∧
      c.is_cross_region = SimilarityEngine.is_cross_region d c.bug ∧
      c.hybrid_score =
        (if SimilarityEngine.is_cross_region d c.bug then
          max 0 (0.7 * c.vector_score + 0.3 * c.metadata_score - 0.05)
        else 0.7 * c.vector_score + 0.3 * c.metadata_score)) := by
  refine ⟨rfl, mem_find_similar_bugs_le db store sqrt model d threshold top_k,
    ?_, ?_, ?_⟩
  · calc (SimilarityEngine.find_similar_bugs db store sqrt model d threshold
          top_k).length
        ≤ (((SimilarityEngine.candidate_pool db d threshold
            (VectorStore.search store sqrt
              (EmbeddingService.generate_embedding model store.dimension
                (SimilarityEngine.build_text_for_matching d))
              (top_k * 2))).mergeSort
              (fun a b => decide (a.hybrid_score ≥ b.hybrid_score))).take
          top_k).length := List.length_filter_le _ _
      _ ≤ top_k := by rw [List.length_take]; exact min_le_left _ _
  · have htrans : ∀ a b c : SimilarityEngine.Candidate,
        (fun a b => decide (a.hybrid_score ≥ b.hybrid_score)) a b = true →
        (fun a b => decide (a.hybrid_score ≥ b.hybrid_score)) b c = true →
        (fun a b => decide (a.hybrid_score ≥ b.hybrid_score)) a c = true := by
      intro a b c hab hbc
      simp only [decide_eq_true_eq] at hab hbc ⊢
      exact le_trans hbc hab
    have htotal : ∀ a b : SimilarityEngine.Candidate,
        ((fun a b => decide (a.hybrid_score ≥ b.hybrid_score)) a b ||
         (fun a b => decide (a.hybrid_score ≥ b.hybrid_score)) b a) = true := by
      intro a b
      rcases le_total a.hybrid_score b.hybrid_score with h | h <;>
        simp [h]
    have hsorted := List.sorted_mergeSort htrans htotal
      (SimilarityEngine.candidate_pool db d threshold
        (VectorStore.search store sqrt
          (EmbeddingService.generate_embedding model store.dimension
            (SimilarityEngine.build_text_for_matching d))
          (top_k * 2)))
    have hsub : List.Sublist
        (SimilarityEngine.find_similar_bugs db store sqrt model d threshold
          top_k)
        ((SimilarityEngine.candidate_pool db d threshold
          (VectorStore.search store sqrt
            (EmbeddingService.generate_embedding model store.dimension
              (SimilarityEngine.build_text_for_matching d))
            (top_k * 2))).mergeSort
          (fun a b => decide (a.hybrid_score ≥ b.hybrid_score))) :=
      (List.filter_sublist _).trans (List.take_sublist _ _)
    exact (hsorted.imp (fun h => decide_eq_true_eq.mp h)).sublist hsub
  · intro vcs c hc
    rw [SimilarityEngine.candidate_pool] at hc
    obtain ⟨p, hp, hfa⟩ := List.mem_filterMap.mp hc
    cases hfind : db.find? (fun b => b.id == p.1) with
    | none => rw [hfind] at hfa; exact absurd hfa (by simp)
    | some bug =>
      rw [hfind] at hfa
      simp only at hfa
      split at hfa
      · exact absurd hfa (by simp)
      · split at hfa <;> rename_i hcr <;> split at hfa <;> rename_i hthr
        · obtain rfl := Option.some.inj hfa
          refine ⟨hthr, rfl, rfl, ?_⟩
          show SimilarityEngine.normalize_cross_region_score
            (SimilarityEngine.compute_hybrid_score p.2
              (SimilarityEngine.compute_metadata_similarity d bug) 0.7 0.3) = _
          rw [if_pos hcr]
          simp only [SimilarityEngine.compute_hybrid_score,
            SimilarityEngine.normalize_cross_region_score]
          ring_nf
        · exact absurd hfa (by simp)
        · obtain rfl := Option.some.inj hfa
          refine ⟨hthr, rfl, rfl, ?_⟩
          show SimilarityEngine.compute_hybrid_score p.2
            (SimilarityEngine.compute_metadata_similarity d bug) 0.7 0.3 = _
          rw [if_neg hcr]
          simp only [SimilarityEngine.compute_hybrid_score]
          ring_nf
        · exact absurd hfa (by simp)

/-- Witness for C5: in the concrete flag scenario the returned candidate is
at or above the threshold and at most `top_k` are returned. -/
theorem find_similar_bugs_spec_witness :
    (0.7:ℚ) ≤ candFlag.hybrid_score ∧
    (SimilarityEngine.find_similar_bugs [parent0] store1 sqrt0 model0 d0 0.7
      10).length ≤ 10 := by
  have h := find_similar_bugs_spec [parent0] store1 sqrt0 model0 d0 0.7 10
  exact ⟨h.2.1 candFlag (find_similar_flag ▸ List.mem_cons_self _ _), h.2.2.1⟩

section MetadataClaim

/-- The metadata score as claim C6 words it: same weights and
normalization, but *every* field other than `build_version` compared
case-insensitively.  Kept separate from `compute_metadata_similarity`
(the code, which compares `region`, `os_version` and `severity` with plain
`==`) to compare the two. -/
def metadata_similarity_claim (incoming : BugData) (existing : Bug) : ℚ :=
  let dev : Bool := isPresent incoming.device && isPresent existing.device
  let s1 : ℚ := if dev then
    (if lowerS (orEmpty incoming.device) = lowerS (orEmpty existing.device)
     then 0.2 else 0) else 0
  let w1 : ℚ := if dev then 0.2 else 0
  let bld : Bool := isPresent incoming.build_version && isPresent existing.build_version
  let s2 : ℚ := if bld then
    (if orEmpty incoming.build_version = orEmpty existing.build_version then 0.3
     else if SimilarityEngine.is_similar_build (orEmpty incoming.build_version)
            (orEmpty existing.build_version) then 0.15
     else 0) else 0
  let w2 : ℚ := if bld then 0.3 else 0
  let reg : Bool := isPresent incoming.region && isPresent existing.region
  let s3 : ℚ := if reg then
    (if lowerS (orEmpty incoming.region) = lowerS (orEmpty existing.region)
     then 0.2 else 0) else 0
  let w3 : ℚ := if reg then 0.2 else 0
  let osv : Bool := isPresent incoming.os_version && isPresent existing.os_version
  let s4 : ℚ := if osv then
    (if lowerS (orEmpty incoming.os_version) = lowerS (orEmpty existing.os_version)
     then 0.15 else 0) else 0
  let w4 : ℚ := if osv then 0.15 else 0
  let sev : Bool := isPresent incoming.severity && isPresent existing.severity
  let s5 : ℚ := if sev then
    (if lowerS (orEmpty incoming.severity) = lowerS (orEmpty existing.severity)
     then 0.15 else 0) else 0
  let w5 : ℚ := if sev then 0.15 else 0
  let score := s1 + s2 + s3 + s4 + s5
  let total_weight := w1 + w2 + w3 + w4 + w5
  if 0 < total_weight then score / total_weight else 0

/-- A submission carrying only a lowercase region. -/
def inc6 : BugData := { region := some "us".data }

/-- An existing bug carrying only the same region uppercased. -/
def ex6 : Bug := { id := 7, region := some "US".data }

/-- The per-field weighted score of `compute_metadata_similarity` before
normalization, named to state the amended claim. -/
def metadata_field_score (incoming : BugData) (existing : Bug) : ℚ :=
  (if isPresent incoming.device && isPresent existing.device then
    (if lowerS (orEmpty incoming.device) = lowerS (orEmpty existing.device)
     then 0.2 else 0) else 0) +
  (if isPresent incoming.build_version && isPresent existing.build_version then
    (if orEmpty incoming.build_version = orEmpty existing.build_version then 0.3
     else if SimilarityEngine.is_similar_build (orEmpty incoming.build_version)
            (orEmpty existing.build_version) then 0.15
     else 0) else 0) +
  (if isPresent incoming.region && isPresent existing.region then
    (if orEmpty incoming.region = orEmpty existing.region then 0.2 else 0)
   else 0) +
  (if isPresent incoming.os_version && isPresent existing.os_version then
    (if orEmpty incoming.os_version = orEmpty existing.os_version then 0.15
     else 0) else 0) +
  (if isPresent incoming.severity && isPresent existing.severity then
    (if orEmpty incoming.severity = orEmpty existing.severity then 0.15
     else 0) else 0)

/-- The summed weights of the fields that contributed (both sides
non-empty). -/
def metadata_field_weight (incoming : BugData) (existing : Bug) : ℚ :=
  (if isPresent incoming.device && isPresent existing.device then 0.2 else 0) +
  (if isPresent incoming.build_version && isPresent existing.build_version
   then 0.3 else 0) +
  (if isPresent incoming.region && isPresent existing.region then 0.2 else 0) +
  (if isPresent incoming.os_version && isPresent existing.os_version
   then 0.15 else 0) +
  (if isPresent incoming.severity && isPresent existing.severity
   then 0.15 else 0)

end MetadataClaim

/-- Counterexample for C6 as stated: regions `us` and `US` are present and
equal case-insensitively, yet the code scores 0 where the claim's
case-insensitive reading scores 1. -/
theorem metadata_similarity_counterexample :
    SimilarityEngine.compute_metadata_similarity inc6 ex6 = 0 ∧
    metadata_similarity_claim inc6 ex6 = 1 := by
  constructor
  · norm_num +decide [SimilarityEngine.compute_metadata_similarity,
      inc6, ex6, orEmpty, isPresent, lowerS]
  · norm_num +decide [metadata_similarity_claim, inc6, ex6, orEmpty,
      isPresent, lowerS]

/-- Claim C6 (amended): the metadata score is the weighted sum with weights
device 0.20, build_version 0.30, region 0.20, os_version 0.15, severity
0.15 — build_version scoring full weight on exact match and half on a
shared `major.minor` prefix, `device` compared case-insensitively, and
`region`, `os_version`, `severity` compared exactly (case-sensitively) —
normalized by the weights of the fields where both sides are non-empty, 0
when no field contributed; the result always lies in `[0, 1]`. -/
theorem compute_metadata_similarity_spec (d : BugData) (b : Bug) :
    SimilarityEngine.compute_metadata_similarity d b =
      (if 0 < metadata_field_weight d b then
        metadata_field_score d b / metadata_field_weight d b else 0) ∧
    (metadata_field_weight d b = 0 →
      SimilarityEngine.compute_metadata_similarity d b = 0) ∧
    0 ≤ SimilarityEngine.compute_metadata_similarity d b ∧
    SimilarityEngine.compute_metadata_similarity d b ≤ 1 := by
  have heq : SimilarityEngine.compute_metadata_similarity d b =
      (if 0 < metadata_field_weight d b then
        metadata_field_score d b / metadata_field_weight d b else 0) := by
    simp only [SimilarityEngine.compute_metadata_similarity,
      metadata_field_score, metadata_field_weight]
  have hs0 : 0 ≤ metadata_field_score d b := by
    unfold metadata_field_score
    refine add_nonneg (add_nonneg (add_nonneg (add_nonneg ?_ ?_) ?_) ?_) ?_ <;>
      split_ifs <;> norm_num
  have hsw : metadata_field_score d b ≤ metadata_field_weight d b := by
    unfold metadata_field_score metadata_field_weight
    gcongr ?_ + ?_ + ?_ + ?_ + ?_ <;> split_ifs <;> norm_num
  refine ⟨heq, ?_, ?_, ?_⟩
  · intro hw
    rw [heq, hw]
    norm_num
  · rw [heq]
    split
    · rename_i hw
      exact div_nonneg hs0 (le_of_lt hw)
    · exact le_refl 0
  · rw [heq]
    split
    · rename_i hw
      exact (div_le_one hw).mpr hsw
    · norm_num

/-- Witness for C6 (amended): with no metadata at all the weight is 0 and
the score normalizes to 0. -/
theorem compute_metadata_similarity_spec_witness :
    SimilarityEngine.compute_metadata_similarity {} { id := 9 } = 0 ∧
    SimilarityEngine.compute_metadata_similarity {} { id := 9 } ≤ 1 := by
  have h := compute_metadata_similarity_spec {} { id := 9 }
  refine ⟨h.2.1 ?_, h.2.2.2⟩
  norm_num +decide [metadata_field_weight, isPresent]

section GenericTitleScenarios

/-- The S4 submission: title `bug`, description `it broke`. -/
def dS4 : BugData :=
  { title := some "bug".data, description := some "it broke".data }

/-- A generic stop-set title that is long enough to reach the generic-title
check. -/
def dNW : BugData := { title := some "not working".data }

end GenericTitleScenarios

/-- Counterexample for C7 as stated: for the stop-set title `bug` the issue
list does *not* contain `generic_title` — the length check fires first and
reports `title_too_short` instead. -/
theorem generic_title_counterexample :
    ¬ "generic_title".data ∈ (QualityChecker.check_quality qc0 dS4).2 ∧
    (QualityChecker.check_quality qc0 dS4).2 =
      ["title_too_short".data, "description_too_short".data,
       "missing_repro_steps".data, "missing_device_info".data,
       "missing_build_version".data, "missing_region".data] := by
  constructor
  · norm_num +decide [QualityChecker.check_quality,
      QualityChecker.is_generic_title, QualityChecker.generic_titles,
      qc0, dS4, orEmpty, isPresent, trimS]
  · norm_num +decide [QualityChecker.check_quality,
      QualityChecker.is_generic_title, QualityChecker.generic_titles,
      qc0, dS4, orEmpty, isPresent, trimS]

/-- Claim C7 (amended): a stop-set title yields the `generic_title` issue
only when its trimmed length is at least 10 (e.g. `not working`); shorter
stop-set titles such as `bug` get `title_too_short` instead.  Either way
the S4 submission is routed as low quality: action `low_quality` and a
`LowQualityQueue` row with status `Pending` carrying the issue list. -/
theorem generic_title_amended (qc : QualityChecker.Config) (d : BugData)
    (h10 : 10 ≤ (trimS (orEmpty d.title)).length)
    (hgen : QualityChecker.is_generic_title (trimS (orEmpty d.title)) = true) :
    "generic_title".data ∈ (QualityChecker.check_quality qc d).2 ∧
    (DuplicateDetector.process_incoming_bug qc0 model0 store0 sqrt0 [] 0.85 0.7
      1 dS4).action = "low_quality".data ∧
    (DuplicateDetector.process_incoming_bug qc0 model0 store0 sqrt0 [] 0.85 0.7
      1 dS4).low_quality_rows =
      [{ title := "bug".data, description := some "it broke".data,
         repro_steps := none, logs := none, reporter := none, device := none,
         build_version := none, region := none,
         quality_issues := ["title_too_short".data,
           "description_too_short".data, "missing_repro_steps".data,
           "missing_device_info".data, "missing_build_version".data,
           "missing_region".data],
         status := "Pending".data }] := by
  have hproc : DuplicateDetector.process_incoming_bug qc0 model0 store0 sqrt0 []
      0.85 0.7 1 dS4 =
      DuplicateDetector.handle_low_quality dS4
        ["title_too_short".data, "description_too_short".data,
         "missing_repro_steps".data, "missing_device_info".data,
         "missing_build_version".data, "missing_region".data] := by
    rw [DuplicateDetector.process_incoming_bug]
    norm_num +decide [QualityChecker.check_quality,
      QualityChecker.is_generic_title, QualityChecker.generic_titles,
      qc0, dS4, orEmpty, isPresent, trimS]
  refine ⟨?_, ?_, ?_⟩
  · have hne : (trimS (orEmpty d.title)).isEmpty = false := by
      cases he : (trimS (orEmpty d.title)).isEmpty
      · rfl
      · rw [List.isEmpty_iff] at he
        rw [he] at h10
        simp at h10
    have hlt : ¬ (trimS (orEmpty d.title)).length < 10 := not_lt.mpr h10
    rw [QualityChecker.check_quality]
    simp only [hne, Bool.false_eq_true, if_false, hlt, hgen, if_true]
    simp [List.mem_append]
  · rw [hproc]
    rfl
  · rw [hproc]
    rfl

/-- Witness for C7 (amended): the stop-set title `not working` (length 11)
does produce `generic_title`. -/
theorem generic_title_amended_witness :
    "generic_title".data ∈ (QualityChecker.check_quality qc0 dNW).2 ∧
    (DuplicateDetector.process_incoming_bug qc0 model0 store0 sqrt0 [] 0.85 0.7
      1 dS4).action = "low_quality".data :=
  have h := generic_title_amended qc0 dNW (by decide)
    (by decide)
  ⟨h.1, h.2.1⟩

/-- A three-vector index: unit basis vectors stored for bugs 10, 20, 30. -/
def store3 : VectorStore.Store :=
  { dimension := 3, vectors := [[1, 0, 0], [0, 1, 0], [0, 0, 1]],
    bug_ids := [10, 20, 30] }

/-- Claim C8, failing input: before removal the vector stored under bug 20
is reported as bug 20; after `remove_vector 10` — which deletes the mapping
entry but leaves all three index rows — the same query is reported as bug
30 with score 1: the positions after the removed entry have shifted, so
`search` no longer reports the id a vector was added under. -/
theorem search_misattributes_after_remove :
    VectorStore.search store3 sqrt0 [0, 1, 0] 5 = [(20, 1), (10, 0), (30, 0)] ∧
    VectorStore.remove_vector store3 10 =
      { dimension := 3, vectors := [[1, 0, 0], [0, 1, 0], [0, 0, 1]],
        bug_ids := [20, 30] } ∧
    VectorStore.search (VectorStore.remove_vector store3 10) sqrt0 [0, 1, 0] 5 =
      [(30, 1), (20, 0)] := by
  refine ⟨?_, ?_, ?_⟩
  · norm_num +decide [VectorStore.search, VectorStore.remove_vector,
      VectorStore.normalize_row, VectorStore.sumSq, VectorStore.dot,
      store3, sqrt0, List.mergeSort, List.filterMap_cons, List.filterMap_nil,
      List.enum, List.enumFrom, List.zipWith, List.sum_cons, List.sum_nil,
      List.take_succ_cons, List.take_nil, List.take_zero]
  · norm_num +decide [VectorStore.remove_vector, store3]
  · norm_num +decide [VectorStore.search, VectorStore.remove_vector,
      VectorStore.normalize_row, VectorStore.sumSq, VectorStore.dot,
      store3, sqrt0, List.mergeSort, List.filterMap_cons, List.filterMap_nil,
      List.enum, List.enumFrom, List.zipWith, List.sum_cons, List.sum_nil,
      List.take_succ_cons, List.take_nil, List.take_zero]

/-- Claim C9: `search` on an empty index returns `[]`; on any index it
returns at most `k` pairs, ordered by descending similarity score. -/
theorem search_spec (store : VectorStore.Store) (sqrt : ℚ → ℚ)
    (query : List ℚ) (k : Nat) :
    (store.vectors = [] → VectorStore.search store sqrt query k = []) ∧
    (VectorStore.search store sqrt query k).length ≤ k ∧
    List.Pairwise (fun a b : Nat × ℚ => b.2 ≤ a.2)
      (VectorStore.search store sqrt query k) := by
  refine ⟨?_, ?_, ?_⟩
  · intro h
    unfold VectorStore.search
    rw [h]
    rfl
  · simp only [VectorStore.search]
    split
    · simp
    · rw [List.length_take]
      exact min_le_left _ _
  · simp only [VectorStore.search]
    split
    · exact List.Pairwise.nil
    · have htrans : ∀ a b c : Nat × ℚ,
          (fun a b => decide (a.2 ≥ b.2)) a b = true →
          (fun a b => decide (a.2 ≥ b.2)) b c = true →
          (fun a b => decide (a.2 ≥ b.2)) a c = true := by
        intro a b c hab hbc
        simp only [decide_eq_true_eq] at hab hbc ⊢
        exact le_trans hbc hab
      have htotal : ∀ a b : Nat × ℚ,
          ((fun a b => decide (a.2 ≥ b.2)) a b ||
           (fun a b => decide (a.2 ≥ b.2)) b a) = true := by
        intro a b
        rcases le_total a.2 b.2 with h | h <;> simp [h]
      have hsorted := List.sorted_mergeSort htrans htotal
        (store.vectors.enum.map (fun p =>
          (p.1, VectorStore.dot (VectorStore.normalize_row sqrt query) p.2)))
      have h1 : List.Pairwise (fun a b : Nat × ℚ => b.2 ≤ a.2)
          (((store.vectors.enum.map (fun p =>
            (p.1, VectorStore.dot (VectorStore.normalize_row sqrt query)
              p.2))).mergeSort (fun a b => decide (a.2 ≥ b.2))).take
            (min (k + 1) store.vectors.length)) :=
        ((hsorted.imp (fun h => decide_eq_true_eq.mp h)).sublist
          (List.take_sublist _ _))
      have h2 := h1.filterMap
        (fun p : Nat × ℚ =>
          if p.1 < store.bug_ids.length then
            some (store.bug_ids.getD p.1 0, p.2) else none)
        (S := fun a b : Nat × ℚ => b.2 ≤ a.2) ?_
      · exact h2.sublist (List.take_sublist _ _)
      · intro a a' hR b hb b' hb'
        simp only [] at hb hb'
        split at hb
        · split at hb'
          · rw [Option.mem_some_iff] at hb hb'
            rw [← hb, ← hb']
            exact hR
          · exact absurd hb' (by simp)
        · exact absurd hb (by simp)

/-- Witness for C9: the empty index. -/
theorem search_spec_witness :
    VectorStore.search store0 sqrt0 [1, 0] 3 = [] ∧
    (VectorStore.search store0 sqrt0 [1, 0] 3).length ≤ 3 := by
  have h := search_spec store0 sqrt0 [1, 0] 3
  exact ⟨h.1 rfl, h.2.1⟩

section NormalizeLemmas

/-- A sum of squares is non-negative. -/
lemma sumSq_nonneg (v : List ℚ) : 0 ≤ VectorStore.sumSq v := by
  induction v with
  | nil => simp [VectorStore.sumSq]
  | cons x xs ih =>
    simp only [VectorStore.sumSq, List.map_cons, List.sum_cons] at ih ⊢
    nlinarith [mul_self_nonneg x]

/-- A vector with zero sum of squares is the zero vector componentwise. -/
lemma eq_zero_of_sumSq_eq_zero {v : List ℚ} (h : VectorStore.sumSq v = 0) :
    ∀ x ∈ v, x = 0 := by
  induction v with
  | nil => simp
  | cons x xs ih =>
    simp only [VectorStore.sumSq, List.map_cons, List.sum_cons] at h
    have hx2 : 0 ≤ x * x := mul_self_nonneg x
    have hxs : 0 ≤ VectorStore.sumSq xs := sumSq_nonneg xs
    have hx : x * x = 0 := by
      simp only [VectorStore.sumSq] at hxs
      linarith
    have hrest : VectorStore.sumSq xs = 0 := by
      simp only [VectorStore.sumSq] at hxs ⊢
      linarith
    intro y hy
    rcases List.mem_cons.mp hy with rfl | hy
    · exact mul_self_eq_zero.mp hx
    · exact ih hrest y hy

/-- Dividing every component by `n` divides the sum of squares by `n * n`. -/
lemma sumSq_map_div (v : List ℚ) (n : ℚ) :
    VectorStore.sumSq (v.map (fun x => x / n)) = VectorStore.sumSq v / (n * n) := by
  induction v with
  | nil => simp [VectorStore.sumSq]
  | cons x xs ih =>
    simp only [VectorStore.sumSq, List.map_cons, List.sum_cons] at ih ⊢
    rw [ih, div_mul_div_comm, div_add_div_same]

end NormalizeLemmas

/-- Claim C10: `_normalize_vectors` is total.  Row-wise: when the sum of
squares is 0 (with a square root that sends 0 to 0, as the real one does)
the divisor is replaced by 1 and the row comes back unchanged; the divisor
`if sqrt s = 0 then 1 else sqrt s` is never 0, so no division by zero
occurs; when the sum of squares is non-zero and `sqrt` is exact on it, the
normalized row has unit norm.  `generate_embedding` maps empty or blank
text to the zero vector, and normalizing that zero vector returns it
unchanged. -/
theorem normalize_vectors_total (sqrt : ℚ → ℚ) (model : List Char → List ℚ)
    (dimension : Nat) (v : List ℚ) (hs0 : sqrt 0 = 0) :
    (VectorStore.sumSq v = 0 → VectorStore.normalize_row sqrt v = v) ∧
    ((if sqrt (VectorStore.sumSq v) = 0 then (1:ℚ)
      else sqrt (VectorStore.sumSq v)) ≠ 0) ∧
    (VectorStore.sumSq v ≠ 0 →
      sqrt (VectorStore.sumSq v) * sqrt (VectorStore.sumSq v) =
        VectorStore.sumSq v →
      VectorStore.sumSq (VectorStore.normalize_row sqrt v) = 1) ∧
    (∀ text : List Char, trimS text = [] →
      EmbeddingService.generate_embedding model dimension text =
        List.replicate dimension 0) ∧
    VectorStore.normalize_row sqrt (List.replicate dimension 0) =
      List.replicate dimension 0 := by
  have hzero : ∀ w : List ℚ, VectorStore.sumSq w = 0 →
      VectorStore.normalize_row sqrt w = w := by
    intro w hw
    simp [VectorStore.normalize_row, hw, hs0]
  refine ⟨hzero v, ?_, ?_, ?_, ?_⟩
  · split
    · exact one_ne_zero
    · assumption
  · intro hv hsq
    have hn : sqrt (VectorStore.sumSq v) ≠ 0 := by
      intro h0
      rw [h0, mul_zero] at hsq
      exact hv hsq.symm
    simp only [VectorStore.normalize_row]
    rw [if_neg hn, sumSq_map_div, hsq, div_self hv]
  · intro text ht
    unfold EmbeddingService.generate_embedding
    rw [ht]
    rfl
  · refine hzero _ ?_
    induction dimension with
    | zero => rfl
    | succ n ih =>
      simp only [List.replicate_succ, VectorStore.sumSq, List.map_cons,
        List.sum_cons] at ih ⊢
      rw [mul_zero, zero_add]
      exact ih

/-- A square-root stand-in that is exact on 25 and sends 0 to 0. -/
def sqrt25 : ℚ → ℚ := fun q => if q = 25 then 5 else 0

/-- Witness for C10: the row `[3, 4]` normalizes to unit norm, and blank
text embeds to the zero vector. -/
theorem normalize_vectors_total_witness :
    VectorStore.sumSq (VectorStore.normalize_row sqrt25 [3, 4]) = 1 ∧
    EmbeddingService.generate_embedding model0 2 " ".data =
      List.replicate 2 0 := by
  have h := normalize_vectors_total sqrt25 model0 2 [3, 4]
    (by norm_num [sqrt25])
  refine ⟨h.2.2.1 ?_ ?_, h.2.2.2.1 " ".data (by decide)⟩
  · norm_num [VectorStore.sumSq]
  · norm_num [VectorStore.sumSq, sqrt25]
